import Mathlib

/-!
Shallow embedding of the snapshot resource lifecycle of the
terraform-provider-daytona repository (internal/resources/snapshot.go and the
surrounding provider plumbing), together with proofs of the specified
properties of Create/Read/Update/Delete/Import and of the polling loops.

External effects (platform API calls, docker engine calls, context
cancellation) are modelled by explicit result values and event traces passed
in as arguments; each polling loop consumes a list of events and returns
none when the trace is exhausted before the loop terminates (the loop would
still be running).
-/

/-- Severity of a classified diagnostic, mirroring the three classes of the
terraform-plugin-framework diag package used by the provider. -/
inductive Severity
  | error
  | warning
  | info
deriving DecidableEq

/-- A single classified diagnostic with summary and detail, as produced by
AddError and AddWarning in the source. -/
structure Diagnostic where
  severity : Severity
  summary : String
  detail : String
deriving DecidableEq

/-- Diagnostics are an ordered collection, as in the diag package. -/
abbrev Diagnostics := List Diagnostic

/-- AddError appends an error-classified diagnostic. -/
def addError (ds : Diagnostics) (summary detail : String) : Diagnostics :=
  ds ++ [⟨Severity.error, summary, detail⟩]

/-- AddWarning appends a warning-classified diagnostic. -/
def addWarning (ds : Diagnostics) (summary detail : String) : Diagnostics :=
  ds ++ [⟨Severity.warning, summary, detail⟩]

/-- HasError of the diag package: true when any diagnostic is
error-classified. -/
def hasError (ds : Diagnostics) : Bool :=
  ds.any fun d => d.severity == Severity.error

/-- A terraform framework value: null, unknown, or a concrete value, as in
the types package (types.String, types.Int32, types.Bool, types.Float32).
Equal on these values is structural equality of state and payload. -/
inductive TFValue (α : Type)
  | null
  | unknown
  | value (a : α)
deriving DecidableEq

/-- ValueString of the framework: the payload for a concrete value, the empty
string for null or unknown. -/
def TFValue.valueString : TFValue String → String
  | .value s => s
  | _ => ""

/-- ValueBool of the framework: the payload for a concrete value, false for
null or unknown. -/
def TFValue.valueBool : TFValue Bool → Bool
  | .value b => b
  | _ => false

/-- ValueInt32 of the framework: the payload for a concrete value, zero for
null or unknown. -/
def TFValue.valueInt32 : TFValue Int → Int
  | .value n => n
  | _ => 0

/-- IsNull of the framework. -/
def TFValue.isNull {α : Type} : TFValue α → Bool
  | .null => true
  | _ => false

/-- IsUnknown of the framework. -/
def TFValue.isUnknown {α : Type} : TFValue α → Bool
  | .unknown => true
  | _ => false

/-- StringPointerValue: a nil pointer becomes null, otherwise the value. -/
def stringPointerValue : Option String → TFValue String
  | none => TFValue.null
  | some s => TFValue.value s

/-- The raw 32-bit pattern of a float32 size value; the provider only copies
these values around and never computes with them, so the payload is kept
abstract as its bit pattern. -/
structure Float32Bits where
  bits : Nat
deriving DecidableEq

/-- Float32PointerValue: a nil pointer becomes null, otherwise the value. -/
def float32PointerValue : Option Float32Bits → TFValue Float32Bits
  | none => TFValue.null
  | some f => TFValue.value f

/-- A wall-clock instant as the Go time package exposes it to Format:
calendar fields plus a timezone offset in minutes. -/
structure GoTime where
  year : Nat
  month : Nat
  day : Nat
  hour : Nat
  minute : Nat
  second : Nat
  tzOffsetMinutes : Int
deriving DecidableEq

/-- Decimal digits of a natural number, most significant first, computed
structurally with a fuel bound so the kernel can evaluate it; the fuel n
always suffices since a number has at most n + 1 decimal digits. -/
def natDigitsAux : Nat → Nat → List Nat
  | 0, n => [n]
  | fuel + 1, n => if n < 10 then [n] else natDigitsAux fuel (n / 10) ++ [n % 10]

/-- Decimal digits of a natural number, most significant first. -/
def natDigits (n : Nat) : List Nat := natDigitsAux n n

/-- The character for one decimal digit. -/
def digitChar (d : Nat) : Char :=
  Char.ofNat (48 + d)

/-- A natural number printed in decimal, zero-padded on the left to the given
width (wider if the number needs more digits), as the Go time package pads
numeric layout fields. -/
def padNum (w n : Nat) : List Char :=
  List.replicate (w - (natDigits n).length) '0' ++ (natDigits n).map digitChar

/-- Format with layout 20060102150405: the Go rendering used for the remote
tag timestamp, second precision, all numeric. -/
def formatTimestamp (t : GoTime) : String :=
  String.mk (padNum 4 t.year ++ padNum 2 t.month ++ padNum 2 t.day ++
    padNum 2 t.hour ++ padNum 2 t.minute ++ padNum 2 t.second)

/-- The Z07:00 layout fragment: Z for UTC, otherwise a signed hour:minute
offset. -/
def formatOffset (mins : Int) : String :=
  if mins = 0 then "Z"
  else
    (if mins < 0 then "-" else "+") ++
      String.mk (padNum 2 (mins.natAbs / 60)) ++ ":" ++
      String.mk (padNum 2 (mins.natAbs % 60))

/-- Format with layout 2006-01-02T15:04:05Z07:00, used for createdAt. -/
def formatRFC3339 (t : GoTime) : String :=
  String.mk (padNum 4 t.year) ++ "-" ++ String.mk (padNum 2 t.month) ++ "-" ++
    String.mk (padNum 2 t.day) ++ "T" ++ String.mk (padNum 2 t.hour) ++ ":" ++
    String.mk (padNum 2 t.minute) ++ ":" ++ String.mk (padNum 2 t.second) ++
    formatOffset t.tzOffsetMinutes

/-- Go strings.Split with a one-character separator, on character lists: the
result always has one segment more than the number of separators. -/
def goSplitChar (sep : Char) : List Char → List (List Char)
  | [] => [[]]
  | c :: rest =>
    let r := goSplitChar sep rest
    if c = sep then [] :: r else (c :: r.headD []) :: r.tail

/-- A platform API call result: an error carrying whether the response status
was 404 and the error text, or a successful value. This mirrors the
(err, httpResp) pairs the source inspects. -/
inductive ApiResult (α : Type)
  | err (is404 : Bool) (msg : String)
  | ok (val : α)
deriving DecidableEq

/-- The remote snapshot state enumeration as matched by the source: active,
error and build_failed are handled explicitly, every other state (pulling,
pending, building, removing, ...) falls into the default branch and is kept
here with its wire tag. -/
inductive SnapshotState
  | active
  | error
  | buildFailed
  | inProgress (tag : String)
deriving DecidableEq

/-- The platform snapshot DTO as consumed by the source. Optional fields model
nil pointers; errorReason and size model unset nullable wrappers as none. -/
structure SnapshotDto where
  id : String
  name : String
  state : SnapshotState
  cpu : Int
  gpu : Int
  mem : Int
  disk : Int
  createdAt : GoTime
  organizationId : Option String
  imageName : Option String
  size : Option Float32Bits
  errorReason : Option String
deriving DecidableEq

/-- The terraform resource model of the snapshot resource, field for field. -/
structure SnapshotResourceModel where
  id : TFValue String
  name : TFValue String
  imageName : TFValue String
  remoteImageName : TFValue String
  organizationId : TFValue String
  size : TFValue Float32Bits
  cpu : TFValue Int
  gpu : TFValue Int
  memory : TFValue Int
  disk : TFValue Int
  createdAt : TFValue String
  keepRemotely : TFValue Bool
deriving DecidableEq

/-- One observed event of a polling loop iteration: either the cancellation
signal is ready when the loop checks it at the top of the iteration, or the
iteration proceeds and its remote call yields the given outcome. -/
inductive PollEvent (α : Type)
  | cancel
  | step (a : α)
deriving DecidableEq

/-- A remote platform call issued by the delete path, recorded so that frame
properties about which calls happen can be stated. -/
inductive RemoteCall
  | getSnapshot (idOrName : String)
  | removeSnapshot (id : String)
deriving DecidableEq

/-- The text of ctx.Err() once the context is cancelled. -/
def ctxCanceledMsg : String := "context canceled"

/-- The replacement decision of Update (snapshot.go, the shouldRecreate
expression): recreate if image_name changes, except when importing (state has
empty image_name), or if name, cpu, memory or disk changes. -/
def shouldRecreate (data stateData : SnapshotResourceModel) : Bool :=
  (!(data.imageName == stateData.imageName) &&
      !(stateData.imageName.valueString == "" && data.imageName.valueString != "")) ||
    !(data.name == stateData.name) ||
    !(data.cpu == stateData.cpu) ||
    !(data.memory == stateData.memory) ||
    !(data.disk == stateData.disk)

/-- The replacement condition in the words of the specification: replacement
is required if any of name, cpu, memory, disk differ, or if
localImageReference (image_name) differs, except when the prior records
localImageReference is empty and the desired one is not (an imported
record). -/
def specReplacementRequired (desired prior : SnapshotResourceModel) : Prop :=
  desired.name ≠ prior.name ∨ desired.cpu ≠ prior.cpu ∨
    desired.memory ≠ prior.memory ∨ desired.disk ≠ prior.disk ∨
    (desired.imageName ≠ prior.imageName ∧
      ¬(prior.imageName.valueString = "" ∧ desired.imageName.valueString ≠ ""))

/-- readSnapshot: fetch by id; a 404 returns the record unchanged with no
diagnostics, any other fetch error is fatal, and a success rewrites the
remote-derived fields (the optional ones only when present). Returns the
updated record and the (infos, warns, errors) diagnostics. -/
def readSnapshot (data : SnapshotResourceModel) (fetch : ApiResult SnapshotDto) :
    SnapshotResourceModel × Diagnostics × Diagnostics × Diagnostics :=
  match fetch with
  | .err true _ => (data, [], [], [])
  | .err false msg =>
      (data, [], [], addError [] "Client Error" ("Unable to read snapshot: " ++ msg))
  | .ok snapshot =>
      let d := { data with
        name := TFValue.value snapshot.name
        cpu := TFValue.value snapshot.cpu
        gpu := TFValue.value snapshot.gpu
        memory := TFValue.value snapshot.mem
        disk := TFValue.value snapshot.disk
        createdAt := TFValue.value (formatRFC3339 snapshot.createdAt) }
      let d := match snapshot.organizationId with
        | some o => { d with organizationId := TFValue.value o }
        | none => d
      let d := match snapshot.imageName with
        | some i => { d with remoteImageName := TFValue.value i }
        | none => d
      let d := match snapshot.size with
        | some _ => { d with size := float32PointerValue snapshot.size }
        | none => d
      (d, [], [], [])

/-- ImportState: fetch by the requested id; a 404 is fatal with the distinct
Snapshot Not Found classification, any other fetch error is fatal with the
Import Error classification, and on success the persisted record is built
from the fetched snapshot with keepRemotely false and image_name empty.
Returns the record to persist (none when nothing is persisted) and the
diagnostics. -/
def importState (snapshotID : String) (fetch : ApiResult SnapshotDto) :
    Option SnapshotResourceModel × Diagnostics :=
  match fetch with
  | .err true _ =>
      (none, addError [] "Snapshot Not Found"
        ("Snapshot with ID/name \"" ++ snapshotID ++ "\" not found"))
  | .err false msg =>
      (none, addError [] "Import Error"
        ("Unable to fetch snapshot \"" ++ snapshotID ++ "\": " ++ msg))
  | .ok snapshot =>
      (some { id := TFValue.value snapshot.id
              name := TFValue.value snapshot.name
              cpu := TFValue.value snapshot.cpu
              gpu := TFValue.value snapshot.gpu
              memory := TFValue.value snapshot.mem
              disk := TFValue.value snapshot.disk
              createdAt := TFValue.value (formatRFC3339 snapshot.createdAt)
              organizationId := stringPointerValue snapshot.organizationId
              size := float32PointerValue snapshot.size
              remoteImageName := stringPointerValue snapshot.imageName
              keepRemotely := TFValue.value false
              imageName := TFValue.value "" }, [])

/-- The confirmation loop of maybeCleanupExistingCreationAttempt: each
iteration first checks cancellation, which plainly returns without adding any
diagnostic; a 404 from the re-fetch confirms deletion and returns; any other
outcome (including a non-404 error) sleeps and polls again. Returns the
diagnostics added by the loop, or none when the trace ends with the loop
still running. -/
def cleanupPoll : List (PollEvent (ApiResult SnapshotDto)) → Option Diagnostics
  | [] => none
  | .cancel :: _ => some []
  | .step (.err true _) :: _ => some []
  | .step (.err false _) :: rest => cleanupPoll rest
  | .step (.ok _) :: rest => cleanupPoll rest

/-- maybeCleanupExistingCreationAttempt: look up the target name; a 404 means
nothing to clean up; any other lookup error is fatal; otherwise delete the
found snapshot (a delete error is downgraded to a warning) and run the
confirmation loop. Returns (warns, errors), or none when the confirmation
trace is exhausted. -/
def maybeCleanupExistingCreationAttempt (lookup : ApiResult SnapshotDto)
    (removeResult : ApiResult Unit)
    (events : List (PollEvent (ApiResult SnapshotDto)))
    (snapshotName : String) : Option (Diagnostics × Diagnostics) :=
  match lookup with
  | .err true _ => some ([], [])
  | .err false msg =>
      some ([], addError [] "Snapshot Check"
        ("Unable to check for if snapshot exists: " ++ msg))
  | .ok _ =>
      let warns := match removeResult with
        | .ok _ => ([] : Diagnostics)
        | .err _ msg => addWarning [] "Cleanup Warning"
            ("Failed to delete existing failed snapshot \"" ++ snapshotName ++ "\": " ++ msg)
      (cleanupPoll events).map fun loopDiags => (warns, loopDiags)

/-- The manifest readiness loop of pushImageToRegistry: each iteration checks
cancellation first, which adds an error-classified cancellation diagnostic;
otherwise DistributionInspect runs, success breaks the loop, failure sleeps
and retries. Each step event is the success of that inspection. -/
def imageAvailabilityPoll : List (PollEvent Bool) → Option Diagnostics
  | [] => none
  | .cancel :: _ =>
      some (addError [] "Image Availability Error"
        ("Cancelled during waiting for image to become available: " ++ ctxCanceledMsg))
  | .step true :: _ => some []
  | .step false :: rest => imageAvailabilityPoll rest

/-- The base image name computed by pushImageToRegistry: split the local name
on the colon, take the first part as the repository, split that on the slash
and take the last segment. -/
def baseImageName (localImageName : List Char) : List Char :=
  let localImageParts := goSplitChar ':' localImageName
  let localImageRepo := localImageParts.headD []
  let repoParts := goSplitChar '/' localImageRepo
  repoParts.getLastD []

/-- The base image name in the words of the specification: the last
slash-separated segment of the portion of the local name before its first
colon. -/
def specBaseImageName (localImageName : List Char) : List Char :=
  (goSplitChar '/' (localImageName.takeWhile fun c => c != ':')).getLastD []

/-- The target remote reference computed by pushImageToRegistry:
registryUrl/project/baseImageName:timestamp. -/
def targetImageRef (registryUrl project localImageName : String) (now : GoTime) : String :=
  registryUrl ++ "/" ++ project ++ "/" ++ String.mk (baseImageName localImageName.data) ++
    ":" ++ formatTimestamp now

/-- The transient push access token returned by the platform. -/
structure PushAccessToken where
  username : String
  secret : String
  registryUrl : String
  project : String
deriving DecidableEq

/-- The external outcomes pushImageToRegistry observes, in the order the
source consults them. Fields holding some msg model a failing call. -/
structure PushEnv where
  pushAccess : ApiResult PushAccessToken
  marshalErr : Option String
  inspectErr : Option String
  now : GoTime
  tagErr : Option String
  pushStartErr : Option String
  copyErr : Option String
  availability : List (PollEvent Bool)
deriving DecidableEq

/-- pushImageToRegistry: obtain transient push access, encode the auth
payload, verify the local image exists, compute the target reference, tag,
push, drain the push stream, then run the manifest readiness loop. Returns
(targetImage, warns, errors); the named return targetImage is empty on
returns taken before it is assigned, and already populated on failures after
the assignment. none means the readiness trace was exhausted. -/
def pushImageToRegistry (env : PushEnv) (localImageName : String) :
    Option (String × Diagnostics × Diagnostics) :=
  match env.pushAccess with
  | .err _ msg =>
      some ("", [], addError [] "API Error" ("Unable to get push access token: " ++ msg))
  | .ok tokenResponse =>
    match env.marshalErr with
    | some msg =>
        some ("", [], addError [] "Auth Error" ("Unable to encode docker auth config: " ++ msg))
    | none =>
      match env.inspectErr with
      | some msg =>
          some ("", [], addError [] "Image Not Found"
            ("Local image \"" ++ localImageName ++ "\" not found: " ++ msg))
      | none =>
        let targetImage := targetImageRef tokenResponse.registryUrl tokenResponse.project
          localImageName env.now
        match env.tagErr with
        | some msg =>
            some (targetImage, [], addError [] "Tag Error" ("Unable to tag image: " ++ msg))
        | none =>
          match env.pushStartErr with
          | some msg =>
              some (targetImage, [], addError [] "Push Error" ("Unable to push image: " ++ msg))
          | none =>
            match env.copyErr with
            | some msg =>
                some (targetImage, [], addError [] "Push Error"
                  ("Error during image push: " ++ msg))
            | none =>
                (imageAvailabilityPoll env.availability).map fun loopErrs =>
                  (targetImage, [], loopErrs)

/-- The creation request registerSnapshot submits: name, the pushed remote
image reference, and the resource overrides for every field that is not
null. -/
structure CreateSnapshotRequest where
  name : String
  imageName : String
  cpu : Option Int
  memory : Option Int
  disk : Option Int
deriving DecidableEq

/-- registerSnapshot: build the creation request from the record and the
target image and submit it; a call error is fatal. Returns the submitted
request and (warns, errors). -/
def registerSnapshot (data : SnapshotResourceModel) (targetImage : String)
    (callErr : Option String) : CreateSnapshotRequest × Diagnostics × Diagnostics :=
  let createRequest : CreateSnapshotRequest :=
    { name := data.name.valueString
      imageName := targetImage
      cpu := if data.cpu.isNull then none else some data.cpu.valueInt32
      memory := if data.memory.isNull then none else some data.memory.valueInt32
      disk := if data.disk.isNull then none else some data.disk.valueInt32 }
  match callErr with
  | some msg =>
      (createRequest, [], addError [] "Client Error"
        ("Unable to create snapshot, got error: " ++ msg))
  | none => (createRequest, [], [])

/-- ensureSnapshotAvailable: each iteration checks cancellation first, which
is fatal with a cancellation diagnostic; then fetches the snapshot, where any
fetch error (404 included) is fatal; an active state returns the snapshot, an
error or build_failed state is fatal carrying the platform reason when set
and a generic message otherwise, and any other state polls again. Returns
(snapshot, warns, errors), or none when the trace is exhausted. -/
def ensureSnapshotAvailable :
    List (PollEvent (ApiResult SnapshotDto)) →
      Option (Option SnapshotDto × Diagnostics × Diagnostics)
  | [] => none
  | .cancel :: _ =>
      some (none, [], addError [] "Snapshot Availability Error"
        ("Cancelled during waiting for snapshot to become available: " ++ ctxCanceledMsg))
  | .step (.err _ msg) :: _ =>
      some (none, [], addError [] "Snapshot Availability Error"
        ("Unable to fetch snapshot: " ++ msg))
  | .step (.ok snapshot) :: rest =>
      match snapshot.state with
      | .active => some (some snapshot, [], [])
      | .error =>
          some (none, [], addError [] "Snapshot Availability Error"
            (match snapshot.errorReason with
             | none => "Snapshot processing failed with unknown reason"
             | some reason => "Snapshot processing failed: " ++ reason))
      | .buildFailed =>
          some (none, [], addError [] "Snapshot Availability Error"
            (match snapshot.errorReason with
             | none => "Snapshot processing failed with unknown reason"
             | some reason => "Snapshot processing failed: " ++ reason))
      | .inProgress _ => ensureSnapshotAvailable rest

/-- The confirmation loop of deleteSnapshot: each iteration checks
cancellation first, which is fatal with a cancellation diagnostic; then
re-fetches the snapshot, where a 404 confirms deletion, any other fetch
error is fatal, and a successful fetch sleeps and polls again. Also records
the GetSnapshot calls the loop issues. -/
def deleteSnapshotPoll (id : String) :
    List (PollEvent (ApiResult SnapshotDto)) → Option (Diagnostics × List RemoteCall)
  | [] => none
  | .cancel :: _ =>
      some (addError [] "Deletion Error"
        ("Cancelled while waiting for snapshot deletion: " ++ ctxCanceledMsg), [])
  | .step (.err true _) :: _ => some ([], [RemoteCall.getSnapshot id])
  | .step (.err false msg) :: _ =>
      some (addError [] "Deletion Verification Error"
        ("Unable to verify snapshot deletion: " ++ msg), [RemoteCall.getSnapshot id])
  | .step (.ok _) :: rest =>
      (deleteSnapshotPoll id rest).map fun r =>
        (r.1, RemoteCall.getSnapshot id :: r.2)

/-- deleteSnapshot: issue the remote delete (a 404 is success, any other
error fatal) and then run the confirmation loop. Returns
(infos, warns, errors) and the remote calls issued; none when the
confirmation trace is exhausted. -/
def deleteSnapshot (data : SnapshotResourceModel) (removeResult : ApiResult Unit)
    (events : List (PollEvent (ApiResult SnapshotDto))) :
    Option (Diagnostics × Diagnostics × Diagnostics × List RemoteCall) :=
  let removeCall := RemoteCall.removeSnapshot data.id.valueString
  match removeResult with
  | .err true _ => some ([], [], [], [removeCall])
  | .err false msg =>
      some ([], [], addError [] "Client Error"
        ("Unable to delete snapshot, got error: " ++ msg), [removeCall])
  | .ok _ =>
      (deleteSnapshotPoll data.id.valueString events).map fun r =>
        ([], [], r.1, removeCall :: r.2)

/-- The Delete entry point after the state has been decoded: when
keepRemotely holds it returns at once with no diagnostics and no remote
calls; otherwise it runs deleteSnapshot and appends its infos, warns and
errors in order. -/
def deleteOp (data : SnapshotResourceModel) (removeResult : ApiResult Unit)
    (events : List (PollEvent (ApiResult SnapshotDto))) :
    Option (Diagnostics × List RemoteCall) :=
  if data.keepRemotely.valueBool then some ([], [])
  else
    (deleteSnapshot data removeResult events).map fun r =>
      (r.1 ++ r.2.1 ++ r.2.2.1, r.2.2.2)

/-- The external outcomes createSnapshot observes across its phases. -/
structure CreateEnv where
  cleanupLookup : ApiResult SnapshotDto
  cleanupRemove : ApiResult Unit
  cleanupEvents : List (PollEvent (ApiResult SnapshotDto))
  dockerClientErr : Option String
  push : PushEnv
  imageRemoveErr : Option String
  registerErr : Option String
  ensureEvents : List (PollEvent (ApiResult SnapshotDto))
deriving DecidableEq

/-- The observable outcome of createSnapshot. removedTag records the deferred
ImageRemove call on the pushed tag (none when the defer was never
registered). deadWarnings records what the deferred cleanup handler appended
to the local warnings slice: in the source that slice was already copied
into the returned warns (and later reassigned), so nothing appended there
ever reaches the caller, and the returned warns never contains the Cleanup
Warning. -/
structure CreateResult where
  model : SnapshotResourceModel
  infos : Diagnostics
  warns : Diagnostics
  errs : Diagnostics
  removedTag : Option String
  deadWarnings : Diagnostics
deriving DecidableEq

/-- The record population at the end of createSnapshot, from the snapshot
returned by the availability poller. -/
def populateFromSnapshot (data : SnapshotResourceModel) (snapshot : SnapshotDto) :
    SnapshotResourceModel :=
  let d := { data with
    id := TFValue.value snapshot.id
    name := TFValue.value snapshot.name
    cpu := TFValue.value snapshot.cpu
    gpu := TFValue.value snapshot.gpu
    memory := TFValue.value snapshot.mem
    disk := TFValue.value snapshot.disk
    createdAt := TFValue.value (formatRFC3339 snapshot.createdAt) }
  let d := match snapshot.organizationId with
    | some _ => { d with organizationId := stringPointerValue snapshot.organizationId }
    | none => d
  let d := match snapshot.imageName with
    | some _ => { d with remoteImageName := stringPointerValue snapshot.imageName }
    | none => d
  match snapshot.size with
  | some _ => { d with size := float32PointerValue snapshot.size }
  | none => d

/-- The deferred ImageRemove handler of createSnapshot, registered only after
the push phase returns without error: it always attempts to remove the
pushed tag, and on failure appends a Cleanup Warning to the local warnings
slice, which the source never returns (the slice was already copied into
warns before the defer ran). -/
def deferredImageRemove (targetImage : String) (removeErr : Option String) : Diagnostics :=
  match removeErr with
  | some msg =>
      addWarning [] "Cleanup Warning"
        ("Failed to remove tagged image " ++ targetImage ++ ": " ++ msg)
  | none => []

/-- createSnapshot: run the stale-attempt cleanup, build the docker client,
push the image, register the snapshot, poll it to availability, and populate
the record; each phase appends its warns and errs and the first phase whose
errs has an error stops the sequence, returning everything gathered so far.
none means one of the polling traces was exhausted. -/
def createSnapshot (env : CreateEnv) (data : SnapshotResourceModel) :
    Option CreateResult :=
  (maybeCleanupExistingCreationAttempt env.cleanupLookup env.cleanupRemove
      env.cleanupEvents data.name.valueString).bind fun cleanup =>
  let warns := cleanup.1
  let errs := cleanup.2
  if hasError errs then
    some { model := data, infos := [], warns := warns, errs := errs,
           removedTag := none, deadWarnings := [] }
  else
    match env.dockerClientErr with
    | some msg =>
        some { model := data, infos := [], warns := warns,
               errs := addError [] "Docker Client Error"
                 ("Unable to create Docker client: " ++ msg),
               removedTag := none, deadWarnings := [] }
    | none =>
      (pushImageToRegistry env.push data.imageName.valueString).bind fun pushed =>
      let targetImage := pushed.1
      let warns := warns ++ pushed.2.1
      let pushErrs := pushed.2.2
      if hasError pushErrs then
        some { model := data, infos := [], warns := warns, errs := pushErrs,
               removedTag := none, deadWarnings := [] }
      else
        let dead := deferredImageRemove targetImage env.imageRemoveErr
        let registered := registerSnapshot data targetImage env.registerErr
        let warns := warns ++ registered.2.1
        let registerErrs := registered.2.2
        if hasError registerErrs then
          some { model := data, infos := [], warns := warns, errs := registerErrs,
                 removedTag := some targetImage, deadWarnings := dead }
        else
          (ensureSnapshotAvailable env.ensureEvents).bind fun ensured =>
          let warns := warns ++ ensured.2.1
          let ensureErrs := ensured.2.2
          if hasError ensureErrs then
            some { model := data, infos := [], warns := warns, errs := ensureErrs,
                   removedTag := some targetImage, deadWarnings := dead }
          else
            match ensured.1 with
            | some snapshot =>
                some { model := populateFromSnapshot data snapshot, infos := [],
                       warns := warns, errs := [],
                       removedTag := some targetImage, deadWarnings := dead }
            | none =>
                some { model := data, infos := [], warns := warns, errs := [],
                       removedTag := some targetImage, deadWarnings := dead }

theorem string_mk_data (cs : List Char) : (String.mk cs).data = cs := rfl

theorem goSplitChar_headD (sep : Char) (cs : List Char) :
    (goSplitChar sep cs).headD [] = cs.takeWhile fun c => c != sep := by
  induction cs with
  | nil => rfl
  | cons c rest ih =>
    simp only [goSplitChar]
    by_cases h : c = sep
    · simp [h]
    · have hp : (c != sep) = true := by simp [h]
      simp only [if_neg h, List.headD_cons, List.takeWhile_cons, hp, if_true]
      rw [ih]

theorem baseImageName_eq_spec (L : List Char) : baseImageName L = specBaseImageName L := by
  simp only [baseImageName, specBaseImageName]
  rw [goSplitChar_headD]

theorem natDigitsAux_lt_ten (fuel : Nat) : ∀ n : Nat, n < 10 ^ (fuel + 1) →
    ∀ d ∈ natDigitsAux fuel n, d < 10 := by
  induction fuel with
  | zero =>
    intro n h d hd
    simp only [natDigitsAux, List.mem_singleton] at hd
    have h10 : (10 : Nat) ^ (0 + 1) = 10 := by norm_num
    omega
  | succ fuel ih =>
    intro n h d hd
    simp only [natDigitsAux] at hd
    split at hd
    · simp only [List.mem_singleton] at hd
      omega
    · next hn =>
      rcases List.mem_append.mp hd with hmem | hmem
      · have hdiv : n / 10 < 10 ^ (fuel + 1) := by
          refine Nat.div_lt_of_lt_mul ?_
          rw [Nat.pow_succ] at h
          omega
        exact ih (n / 10) hdiv d hmem
      · simp only [List.mem_singleton] at hmem
        omega

theorem natDigits_lt_ten (n : Nat) : ∀ d ∈ natDigits n, d < 10 := by
  have hn : n < 10 ^ (n + 1) := by
    calc n < 10 ^ n := Nat.lt_pow_self (by norm_num) n
    _ ≤ 10 ^ (n + 1) := Nat.pow_le_pow_right (by norm_num) (by omega)
  exact natDigitsAux_lt_ten n n hn

theorem natDigitsAux_length_le (fuel : Nat) : ∀ k n : Nat, 0 < k → n < 10 ^ k →
    (natDigitsAux fuel n).length ≤ k := by
  induction fuel with
  | zero =>
    intro k n hk h
    simp only [natDigitsAux, List.length_singleton]
    omega
  | succ fuel ih =>
    intro k n hk h
    simp only [natDigitsAux]
    split
    · simp only [List.length_singleton]
      omega
    · next hn =>
      have hk2 : 2 ≤ k := by
        by_contra hc
        have hk1 : k = 1 := by omega
        subst hk1
        simp only [pow_one] at h
        omega
      have hp : 10 ^ k = 10 ^ (k - 1) * 10 := by
        conv_lhs => rw [show k = (k - 1) + 1 by omega]
        rw [Nat.pow_succ]
      have hdiv : n / 10 < 10 ^ (k - 1) := by
        refine Nat.div_lt_of_lt_mul ?_
        omega
      have h2 := ih (k - 1) (n / 10) (by omega) hdiv
      simp only [List.length_append, List.length_cons, List.length_nil]
      omega

theorem natDigits_length_le (k n : Nat) (hk : 0 < k) (h : n < 10 ^ k) :
    (natDigits n).length ≤ k :=
  natDigitsAux_length_le n k n hk h

theorem padNum_length (w n : Nat) (h : (natDigits n).length ≤ w) : (padNum w n).length = w := by
  simp only [padNum, List.length_append, List.length_replicate, List.length_map]
  omega

theorem digitChar_isDigit (d : Nat) (h : d < 10) : (digitChar d).isDigit = true := by
  interval_cases d <;> decide

theorem padNum_isDigit (w n : Nat) : ∀ c ∈ padNum w n, c.isDigit = true := by
  intro c hc
  unfold padNum at hc
  rcases List.mem_append.mp hc with h | h
  · have hz := List.eq_of_mem_replicate h
    subst hz
    decide
  · rcases List.mem_map.mp h with ⟨d, hd, rfl⟩
    exact digitChar_isDigit d (natDigits_lt_ten n d hd)

theorem natDigits_length_le_four (n : Nat) (h : n ≤ 9999) : (natDigits n).length ≤ 4 := by
  have h10 : (10 : Nat) ^ 4 = 10000 := by norm_num
  exact natDigits_length_le 4 n (by omega) (by omega)

theorem natDigits_length_le_two (n : Nat) (h : n ≤ 99) : (natDigits n).length ≤ 2 := by
  have h10 : (10 : Nat) ^ 2 = 100 := by norm_num
  exact natDigits_length_le 2 n (by omega) (by omega)

/-- Claim C1: for every Update invocation, replacement (delete-then-create)
is chosen, i.e. shouldRecreate holds, iff at least one of name, cpu, memory
or disk differs between the desired and prior records, or localImageReference
differs, except that a localImageReference difference where the prior value
is empty and the desired one non-empty (an imported record) does not by
itself trigger replacement. -/
theorem update_replacement_iff_spec (desired prior : SnapshotResourceModel) :
    shouldRecreate desired prior = true ↔ specReplacementRequired desired prior := by
  simp only [shouldRecreate, specReplacementRequired, Bool.or_eq_true, Bool.and_eq_true,
    Bool.not_eq_true', Bool.and_eq_false_iff, beq_iff_eq, beq_eq_false_iff_ne, ne_eq,
    bne_iff_ne, Bool.not_eq_true, bne_eq_false_iff_eq]
  tauto

/-- Claim C2 counterexample: cancellation fires during the stale-cleanup
confirmation polling loop, yet maybeCleanupExistingCreationAttempt returns
with no diagnostics at all, refuting that every polling loop reports an
error-classified cancellation diagnostic. -/
theorem cleanup_cancellation_silent_counterexample :
    maybeCleanupExistingCreationAttempt
      (ApiResult.ok
        { id := "snap-1", name := "test-snap", state := SnapshotState.inProgress "creating",
          cpu := 1, gpu := 0, mem := 1, disk := 3,
          createdAt := ⟨2025, 1, 1, 0, 0, 0, 0⟩,
          organizationId := none, imageName := none, size := none, errorReason := none })
      (ApiResult.ok ()) [PollEvent.cancel] "test-snap" = some ([], []) := rfl

/-- Claim C2 amended: cancellation observed at the top of an iteration of the
manifest-readiness, availability and deletion-confirmation polling loops
yields an error-classified cancellation diagnostic, while the stale-cleanup
confirmation loop returns silently, adding no diagnostic. -/
theorem polling_cancellation_per_loop :
    ∀ (restA : List (PollEvent Bool))
      (restB restC restD : List (PollEvent (ApiResult SnapshotDto))) (id : String),
      imageAvailabilityPoll (PollEvent.cancel :: restA) =
        some [⟨Severity.error, "Image Availability Error",
          "Cancelled during waiting for image to become available: " ++ ctxCanceledMsg⟩] ∧
      ensureSnapshotAvailable (PollEvent.cancel :: restB) =
        some (none, [], [⟨Severity.error, "Snapshot Availability Error",
          "Cancelled during waiting for snapshot to become available: " ++ ctxCanceledMsg⟩]) ∧
      deleteSnapshotPoll id (PollEvent.cancel :: restC) =
        some ([⟨Severity.error, "Deletion Error",
          "Cancelled while waiting for snapshot deletion: " ++ ctxCanceledMsg⟩], []) ∧
      cleanupPoll (PollEvent.cancel :: restD) = some [] := by
  intro restA restB restC restD id
  exact ⟨rfl, rfl, rfl, rfl⟩

/-- Claim C6: a not-found fetch makes Read a success with the record
unchanged and no diagnostics at all, while any other fetch error produces an
error-classified diagnostic. -/
theorem read_not_found_success (data : SnapshotResourceModel) (msg : String) :
    readSnapshot data (ApiResult.err true msg) = (data, [], [], []) ∧
    readSnapshot data (ApiResult.err false msg) =
      (data, [], [], [⟨Severity.error, "Client Error", "Unable to read snapshot: " ++ msg⟩]) ∧
    hasError (readSnapshot data (ApiResult.err true msg)).2.2.2 = false ∧
    hasError (readSnapshot data (ApiResult.err false msg)).2.2.2 = true :=
  ⟨rfl, rfl, rfl, rfl⟩

/-- Claim C8: Delete on a record with keepRemotely true succeeds at once with
no diagnostics and zero remote calls. -/
theorem delete_keep_remotely_noop (data : SnapshotResourceModel)
    (removeResult : ApiResult Unit) (events : List (PollEvent (ApiResult SnapshotDto)))
    (h : data.keepRemotely.valueBool = true) :
    deleteOp data removeResult events = some ([], []) := by
  simp [deleteOp, h]

/-- Witness for claim C8 at a concrete record with keepRemotely set. -/
theorem delete_keep_remotely_noop_witness :
    deleteOp
      { id := TFValue.value "snap-1", name := TFValue.value "test-snap",
        imageName := TFValue.value "myapp:latest", remoteImageName := TFValue.null,
        organizationId := TFValue.null, size := TFValue.null,
        cpu := TFValue.value 1, gpu := TFValue.null, memory := TFValue.value 1,
        disk := TFValue.value 3, createdAt := TFValue.null,
        keepRemotely := TFValue.value true }
      (ApiResult.ok ()) [] = some ([], []) :=
  delete_keep_remotely_noop _ _ _ rfl

/-- Claim C9: during availability polling every fetch error, not-found
included, immediately yields an error-classified diagnostic and stops the
loop, while the same not-found outcome is success in Read, in the deletion
confirmation loop and in the stale-cleanup confirmation loop. -/
theorem availability_not_found_fatal (msg id : String)
    (rest : List (PollEvent (ApiResult SnapshotDto))) (data : SnapshotResourceModel) :
    ensureSnapshotAvailable (PollEvent.step (ApiResult.err true msg) :: rest) =
      some (none, [], [⟨Severity.error, "Snapshot Availability Error",
        "Unable to fetch snapshot: " ++ msg⟩]) ∧
    ensureSnapshotAvailable (PollEvent.step (ApiResult.err false msg) :: rest) =
      some (none, [], [⟨Severity.error, "Snapshot Availability Error",
        "Unable to fetch snapshot: " ++ msg⟩]) ∧
    readSnapshot data (ApiResult.err true msg) = (data, [], [], []) ∧
    deleteSnapshotPoll id (PollEvent.step (ApiResult.err true msg) :: rest) =
      some ([], [RemoteCall.getSnapshot id]) ∧
    cleanupPoll (PollEvent.step (ApiResult.err true msg) :: rest) = some [] :=
  ⟨rfl, rfl, rfl, rfl, rfl⟩

/-- Claim C4: the target remote reference computed by pushImageToRegistry is
registryUrl/project/base:timestamp where base is the last slash-separated
segment of the portion of the local name before its first colon, and the
timestamp renders the current time as a 14-digit all-numeric string at
second precision. -/
theorem push_target_reference_spec (registryUrl project localImageName : String)
    (now : GoTime) (hy : now.year ≤ 9999) (hmo : now.month ≤ 99) (hd : now.day ≤ 99)
    (hh : now.hour ≤ 99) (hmi : now.minute ≤ 99) (hs : now.second ≤ 99) :
    targetImageRef registryUrl project localImageName now =
      registryUrl ++ "/" ++ project ++ "/" ++
        String.mk (specBaseImageName localImageName.data) ++ ":" ++ formatTimestamp now ∧
    (formatTimestamp now).length = 14 ∧
    ∀ c ∈ (formatTimestamp now).data, c.isDigit = true := by
  refine ⟨?_, ?_, ?_⟩
  · rw [targetImageRef, baseImageName_eq_spec]
  · have l1 := padNum_length 4 now.year (natDigits_length_le_four _ hy)
    have l2 := padNum_length 2 now.month (natDigits_length_le_two _ hmo)
    have l3 := padNum_length 2 now.day (natDigits_length_le_two _ hd)
    have l4 := padNum_length 2 now.hour (natDigits_length_le_two _ hh)
    have l5 := padNum_length 2 now.minute (natDigits_length_le_two _ hmi)
    have l6 := padNum_length 2 now.second (natDigits_length_le_two _ hs)
    have : (formatTimestamp now).length =
        (padNum 4 now.year ++ padNum 2 now.month ++ padNum 2 now.day ++
          padNum 2 now.hour ++ padNum 2 now.minute ++ padNum 2 now.second).length := rfl
    rw [this]
    simp only [List.length_append, l1, l2, l3, l4, l5, l6]
  · intro c hc
    have hc2 : c ∈ padNum 4 now.year ++ padNum 2 now.month ++ padNum 2 now.day ++
        padNum 2 now.hour ++ padNum 2 now.minute ++ padNum 2 now.second := hc
    rcases List.mem_append.mp hc2 with h5 | h6
    rcases List.mem_append.mp h5 with h4 | h5b
    rcases List.mem_append.mp h4 with h3 | h4b
    rcases List.mem_append.mp h3 with h2 | h3b
    rcases List.mem_append.mp h2 with h1 | h2b
    · exact padNum_isDigit 4 now.year c h1
    · exact padNum_isDigit 2 now.month c h2b
    · exact padNum_isDigit 2 now.day c h3b
    · exact padNum_isDigit 2 now.hour c h4b
    · exact padNum_isDigit 2 now.minute c h5b
    · exact padNum_isDigit 2 now.second c h6

/-- Witness for claim C4 at a concrete publish input. -/
theorem push_target_reference_spec_witness :
    targetImageRef "registry.example.com" "proj" "repo/app:v1" ⟨2025, 1, 2, 3, 4, 5, 0⟩ =
      "registry.example.com" ++ "/" ++ "proj" ++ "/" ++
        String.mk (specBaseImageName ("repo/app:v1").data) ++ ":" ++
        formatTimestamp ⟨2025, 1, 2, 3, 4, 5, 0⟩ ∧
    (formatTimestamp ⟨2025, 1, 2, 3, 4, 5, 0⟩).length = 14 ∧
    ∀ c ∈ (formatTimestamp ⟨2025, 1, 2, 3, 4, 5, 0⟩).data, c.isDigit = true :=
  push_target_reference_spec "registry.example.com" "proj" "repo/app:v1" _
    (by decide) (by decide) (by decide) (by decide) (by decide) (by decide)

/-- Claim C5: availability polling returns the fetched record at once on an
active state, fails at once on error or build_failed carrying the platform
reason when set and a generic message otherwise, and polls again on any
other state. -/
theorem availability_poll_state_cases (snapshot : SnapshotDto)
    (rest : List (PollEvent (ApiResult SnapshotDto))) :
    (snapshot.state = SnapshotState.active →
      ensureSnapshotAvailable (PollEvent.step (ApiResult.ok snapshot) :: rest) =
        some (some snapshot, [], [])) ∧
    (∀ reason,
      (snapshot.state = SnapshotState.error ∨ snapshot.state = SnapshotState.buildFailed) →
      snapshot.errorReason = some reason →
      ensureSnapshotAvailable (PollEvent.step (ApiResult.ok snapshot) :: rest) =
        some (none, [], [⟨Severity.error, "Snapshot Availability Error",
          "Snapshot processing failed: " ++ reason⟩])) ∧
    ((snapshot.state = SnapshotState.error ∨ snapshot.state = SnapshotState.buildFailed) →
      snapshot.errorReason = none →
      ensureSnapshotAvailable (PollEvent.step (ApiResult.ok snapshot) :: rest) =
        some (none, [], [⟨Severity.error, "Snapshot Availability Error",
          "Snapshot processing failed with unknown reason"⟩])) ∧
    (∀ tag, snapshot.state = SnapshotState.inProgress tag →
      ensureSnapshotAvailable (PollEvent.step (ApiResult.ok snapshot) :: rest) =
        ensureSnapshotAvailable rest) := by
  refine ⟨?_, ?_, ?_, ?_⟩
  · intro h
    simp [ensureSnapshotAvailable, h]
  · intro reason h hr
    rcases h with h | h <;> simp [ensureSnapshotAvailable, h, hr, addError]
  · intro h hr
    rcases h with h | h <;> simp [ensureSnapshotAvailable, h, hr, addError]
  · intro tag h
    simp [ensureSnapshotAvailable, h]

/-- Witness for claim C5 at four concrete snapshots, one per state case. -/
theorem availability_poll_state_cases_witness :
    ensureSnapshotAvailable [PollEvent.step (ApiResult.ok
      { id := "a", name := "n", state := SnapshotState.active, cpu := 1, gpu := 0,
        mem := 1, disk := 3, createdAt := ⟨2025, 1, 1, 0, 0, 0, 0⟩,
        organizationId := none, imageName := none, size := none, errorReason := none })] =
      some (some
      { id := "a", name := "n", state := SnapshotState.active, cpu := 1, gpu := 0,
        mem := 1, disk := 3, createdAt := ⟨2025, 1, 1, 0, 0, 0, 0⟩,
        organizationId := none, imageName := none, size := none, errorReason := none },
        [], []) ∧
    ensureSnapshotAvailable [PollEvent.step (ApiResult.ok
      { id := "b", name := "n", state := SnapshotState.error, cpu := 1, gpu := 0,
        mem := 1, disk := 3, createdAt := ⟨2025, 1, 1, 0, 0, 0, 0⟩,
        organizationId := none, imageName := none, size := none,
        errorReason := some "boom" })] =
      some (none, [], [⟨Severity.error, "Snapshot Availability Error",
        "Snapshot processing failed: " ++ "boom"⟩]) ∧
    ensureSnapshotAvailable [PollEvent.step (ApiResult.ok
      { id := "c", name := "n", state := SnapshotState.buildFailed, cpu := 1, gpu := 0,
        mem := 1, disk := 3, createdAt := ⟨2025, 1, 1, 0, 0, 0, 0⟩,
        organizationId := none, imageName := none, size := none, errorReason := none })] =
      some (none, [], [⟨Severity.error, "Snapshot Availability Error",
        "Snapshot processing failed with unknown reason"⟩]) ∧
    ensureSnapshotAvailable [PollEvent.step (ApiResult.ok
      { id := "d", name := "n", state := SnapshotState.inProgress "building", cpu := 1,
        gpu := 0, mem := 1, disk := 3, createdAt := ⟨2025, 1, 1, 0, 0, 0, 0⟩,
        organizationId := none, imageName := none, size := none, errorReason := none })] =
      ensureSnapshotAvailable [] :=
  ⟨(availability_poll_state_cases _ []).1 rfl,
   (availability_poll_state_cases _ []).2.1 "boom" (Or.inl rfl) rfl,
   (availability_poll_state_cases _ []).2.2.1 (Or.inr rfl) rfl,
   (availability_poll_state_cases _ []).2.2.2 "building" rfl⟩

/-- Claim C7: Import classifies a not-found fetch distinctly from other fetch
errors, persists no record in either error case, and on success persists a
record fully populated from the fetched snapshot with keepRemotely false and
image_name empty. -/
theorem import_state_spec (snapshotID msg : String) (snapshot : SnapshotDto) :
    importState snapshotID (ApiResult.err true msg) =
      (none, [⟨Severity.error, "Snapshot Not Found",
        "Snapshot with ID/name \"" ++ snapshotID ++ "\" not found"⟩]) ∧
    importState snapshotID (ApiResult.err false msg) =
      (none, [⟨Severity.error, "Import Error",
        "Unable to fetch snapshot \"" ++ snapshotID ++ "\": " ++ msg⟩]) ∧
    (importState snapshotID (ApiResult.err true msg)).2 ≠
      (importState snapshotID (ApiResult.err false msg)).2 ∧
    importState snapshotID (ApiResult.ok snapshot) =
      (some { id := TFValue.value snapshot.id
              name := TFValue.value snapshot.name
              cpu := TFValue.value snapshot.cpu
              gpu := TFValue.value snapshot.gpu
              memory := TFValue.value snapshot.mem
              disk := TFValue.value snapshot.disk
              createdAt := TFValue.value (formatRFC3339 snapshot.createdAt)
              organizationId := stringPointerValue snapshot.organizationId
              size := float32PointerValue snapshot.size
              remoteImageName := stringPointerValue snapshot.imageName
              keepRemotely := TFValue.value false
              imageName := TFValue.value "" }, []) := by
  refine ⟨rfl, rfl, ?_, rfl⟩
  intro h
  simp [importState, addError] at h

/-- Claim C10: Read leaves id, image_name and keep_remotely untouched in
every outcome, leaves the whole record untouched on any fetch error, and on
success rewrites exactly name, cpu, gpu, memory, disk and createdAt, plus
organizationId, remoteImageName and size only when present in the fetched
snapshot. -/
theorem read_frame_fields (data : SnapshotResourceModel) (fetch : ApiResult SnapshotDto) :
    ((readSnapshot data fetch).1.id = data.id ∧
     (readSnapshot data fetch).1.imageName = data.imageName ∧
     (readSnapshot data fetch).1.keepRemotely = data.keepRemotely) ∧
    (∀ is404 msg, fetch = ApiResult.err is404 msg → (readSnapshot data fetch).1 = data) ∧
    (∀ snapshot, fetch = ApiResult.ok snapshot → (readSnapshot data fetch).1 =
      { data with
        name := TFValue.value snapshot.name
        cpu := TFValue.value snapshot.cpu
        gpu := TFValue.value snapshot.gpu
        memory := TFValue.value snapshot.mem
        disk := TFValue.value snapshot.disk
        createdAt := TFValue.value (formatRFC3339 snapshot.createdAt)
        organizationId := match snapshot.organizationId with
          | some o => TFValue.value o
          | none => data.organizationId
        remoteImageName := match snapshot.imageName with
          | some i => TFValue.value i
          | none => data.remoteImageName
        size := match snapshot.size with
          | some f => TFValue.value f
          | none => data.size }) := by
  cases fetch with
  | err is404 msg =>
    cases is404 <;>
      exact ⟨⟨rfl, rfl, rfl⟩, fun _ _ _ => rfl, fun s h => ApiResult.noConfusion h⟩
  | ok snapshot =>
    obtain ⟨i, n, st, c, g, m, dk, ca, org, img, sz, er⟩ := snapshot
    refine ⟨?_, fun _ _ h => ApiResult.noConfusion h, ?_⟩
    · rcases org with _ | o <;> rcases img with _ | im <;> rcases sz with _ | f <;>
        exact ⟨rfl, rfl, rfl⟩
    · intro s2 h
      cases h
      rcases org with _ | o <;> rcases img with _ | im <;> rcases sz with _ | f <;> rfl

/-- Witness for claim C10 at a concrete record, for the not-found outcome and
for a successful fetch whose optional fields are absent. -/
theorem read_frame_fields_witness :
    (readSnapshot
      { id := TFValue.value "snap-1", name := TFValue.value "old",
        imageName := TFValue.value "myapp:latest", remoteImageName := TFValue.null,
        organizationId := TFValue.null, size := TFValue.null,
        cpu := TFValue.value 1, gpu := TFValue.null, memory := TFValue.value 1,
        disk := TFValue.value 3, createdAt := TFValue.null,
        keepRemotely := TFValue.value false }
      (ApiResult.err true "gone")).1 =
      { id := TFValue.value "snap-1", name := TFValue.value "old",
        imageName := TFValue.value "myapp:latest", remoteImageName := TFValue.null,
        organizationId := TFValue.null, size := TFValue.null,
        cpu := TFValue.value 1, gpu := TFValue.null, memory := TFValue.value 1,
        disk := TFValue.value 3, createdAt := TFValue.null,
        keepRemotely := TFValue.value false } ∧
    (readSnapshot
      { id := TFValue.value "snap-1", name := TFValue.value "old",
        imageName := TFValue.value "myapp:latest", remoteImageName := TFValue.null,
        organizationId := TFValue.null, size := TFValue.null,
        cpu := TFValue.value 1, gpu := TFValue.null, memory := TFValue.value 1,
        disk := TFValue.value 3, createdAt := TFValue.null,
        keepRemotely := TFValue.value false }
      (ApiResult.ok
        { id := "snap-1", name := "new", state := SnapshotState.active, cpu := 2,
          gpu := 0, mem := 4, disk := 10, createdAt := ⟨2025, 1, 2, 3, 4, 5, 0⟩,
          organizationId := none, imageName := none, size := none,
          errorReason := none })).1 =
      { id := TFValue.value "snap-1", name := TFValue.value "new",
        imageName := TFValue.value "myapp:latest", remoteImageName := TFValue.null,
        organizationId := TFValue.null, size := TFValue.null,
        cpu := TFValue.value 2, gpu := TFValue.value 0, memory := TFValue.value 4,
        disk := TFValue.value 10,
        createdAt := TFValue.value (formatRFC3339 ⟨2025, 1, 2, 3, 4, 5, 0⟩),
        keepRemotely := TFValue.value false } :=
  ⟨(read_frame_fields _ (ApiResult.err true "gone")).2.1 true "gone" rfl,
   (read_frame_fields _ (ApiResult.ok _)).2.2 _ rfl⟩

/-- Claim C3, evaluated at the failing input: in this Create run the push
phase succeeds, every later remote phase succeeds, and the deferred removal
of the pushed tag runs (removedTag) but fails; the Cleanup Warning is
appended only to the dead local warnings slice (deadWarnings) that the
source had already copied into its named return, so the warns actually
returned to the caller are empty and the warning never reaches them. -/
theorem create_cleanup_warning_dropped :
    (createSnapshot
      { cleanupLookup := ApiResult.err true "record not found",
        cleanupRemove := ApiResult.ok (),
        cleanupEvents := [],
        dockerClientErr := none,
        push := { pushAccess := ApiResult.ok
                    { username := "user", secret := "secret",
                      registryUrl := "registry.example.com", project := "proj" },
                  marshalErr := none, inspectErr := none,
                  now := ⟨2025, 1, 2, 3, 4, 5, 0⟩,
                  tagErr := none, pushStartErr := none, copyErr := none,
                  availability := [PollEvent.step true] },
        imageRemoveErr := some "device busy",
        registerErr := none,
        ensureEvents := [PollEvent.step (ApiResult.ok
          { id := "snap-9", name := "test-snap", state := SnapshotState.active,
            cpu := 2, gpu := 0, mem := 4, disk := 10,
            createdAt := ⟨2025, 1, 2, 3, 4, 6, 0⟩, organizationId := none,
            imageName := none, size := none, errorReason := none })] }
      { id := TFValue.null, name := TFValue.value "test-snap",
        imageName := TFValue.value "myapp:latest", remoteImageName := TFValue.null,
        organizationId := TFValue.null, size := TFValue.null,
        cpu := TFValue.value 2, gpu := TFValue.null, memory := TFValue.value 4,
        disk := TFValue.value 10, createdAt := TFValue.null,
        keepRemotely := TFValue.value false }).map
      (fun r => (r.warns, r.errs, r.removedTag, r.deadWarnings)) =
    some ([], [], some "registry.example.com/proj/myapp:20250102030405",
      [⟨Severity.warning, "Cleanup Warning",
        "Failed to remove tagged image registry.example.com/proj/myapp:20250102030405: device busy"⟩]) := by
  rfl
